import Mathlib

/-!
Verification of the LG soundbar integration driver (protocol client).

The development shallowly embeds the Python sources:
  * `lglib.py` (class `Temescal`): packet padding, encryption framing,
    decryption and padding strip (`encrypt_packet`, `decrypt_packet`,
    `send_packet`);
  * `client.py` (class `LGDevice`): the device state snapshot, the derived
    properties `volume`, `play_state`, `state`, the response handler for
    `SPK_LIST_VIEW_INFO`, the poll loop `_background_update_task`, the
    command wrapper `cmd_wrapper`, `update`/`connect` request passes, and
    the facade commands `volume_up`, `toggle`, `send_command`.

Bytes are modelled as `Nat` (values < 256), Python `str` values as lists of
Unicode code points (`List Nat`), Python floats as `ℚ`, Python `int` as `Int`.
Fallible code returns `Option`.  The AES-256-CBC cipher with the fixed
key/IV and the JSON serializer/parser are external library calls
(`Crypto.Cipher.AES`, `json.dumps`/`json.loads`); they are taken as function
parameters, with their documented contracts (decryption inverts encryption;
parsing inverts serialization on representable values) as hypotheses.
-/

set_option maxRecDepth 8000

namespace LGSoundbar

/-! ## Codec: `lglib.py`, `Temescal.encrypt_packet` / `Temescal.decrypt_packet` -/

/-- UTF-8 encoding of one Unicode code point, as Python `str.encode("utf-8")`
produces for a single character. -/
def utf8EncodeChar (c : Nat) : List Nat :=
  if c < 0x80 then [c]
  else if c < 0x800 then [0xC0 + c / 64, 0x80 + c % 64]
  else if c < 0x10000 then [0xE0 + c / 4096, 0x80 + c / 64 % 64, 0x80 + c % 64]
  else [0xF0 + c / 262144, 0x80 + c / 4096 % 64, 0x80 + c / 64 % 64, 0x80 + c % 64]

/-- UTF-8 encoding of a Python `str` (list of code points), as
`data.encode("utf-8")` in `Temescal.encrypt_packet`. -/
def utf8Encode (s : List Nat) : List Nat :=
  (s.map utf8EncodeChar).flatten

/-- Strict decoding of one UTF-8 encoded code point from the front of a byte
sequence, returning the code point and the remaining bytes; `none` models an
invalid start byte, a truncated or invalid continuation, an overlong form, a
surrogate, or a value above U+10FFFF. -/
def utf8DecodeOne (b : Nat) (rest : List Nat) : Option (Nat × List Nat) :=
  if b < 0x80 then some (b, rest)
  else if 0xC2 ≤ b ∧ b ≤ 0xDF then
    match rest with
    | b1 :: r =>
      if 0x80 ≤ b1 ∧ b1 < 0xC0 then some ((b - 0xC0) * 64 + (b1 - 0x80), r)
      else none
    | [] => none
  else if 0xE0 ≤ b ∧ b ≤ 0xEF then
    match rest with
    | b1 :: b2 :: r =>
      if ((b = 0xE0 ∧ 0xA0 ≤ b1 ∧ b1 < 0xC0) ∨
          (b = 0xED ∧ 0x80 ≤ b1 ∧ b1 < 0xA0) ∨
          (b ≠ 0xE0 ∧ b ≠ 0xED ∧ 0x80 ≤ b1 ∧ b1 < 0xC0)) ∧
         0x80 ≤ b2 ∧ b2 < 0xC0 then
        some ((b - 0xE0) * 4096 + (b1 - 0x80) * 64 + (b2 - 0x80), r)
      else none
    | _ => none
  else if 0xF0 ≤ b ∧ b ≤ 0xF4 then
    match rest with
    | b1 :: b2 :: b3 :: r =>
      if ((b = 0xF0 ∧ 0x90 ≤ b1 ∧ b1 < 0xC0) ∨
          (b = 0xF4 ∧ 0x80 ≤ b1 ∧ b1 < 0x90) ∨
          (b ≠ 0xF0 ∧ b ≠ 0xF4 ∧ 0x80 ≤ b1 ∧ b1 < 0xC0)) ∧
         0x80 ≤ b2 ∧ b2 < 0xC0 ∧ 0x80 ≤ b3 ∧ b3 < 0xC0 then
        some ((b - 0xF0) * 262144 + (b1 - 0x80) * 4096 +
              (b2 - 0x80) * 64 + (b3 - 0x80), r)
      else none
    | _ => none
  else none

/-- Fuel-bounded UTF-8 decoding loop.  Every successful `utf8DecodeOne` step
consumes at least one byte, so with fuel equal to the byte count the
fuel-exhaustion branch is never taken (see `utf8DecodeOne_length`). -/
def utf8DecodeAux : Nat → List Nat → Option (List Nat)
  | _, [] => some []
  | 0, _ :: _ => none
  | fuel + 1, b :: rest =>
    match utf8DecodeOne b rest with
    | none => none
    | some (c, r) => (utf8DecodeAux fuel r).map (fun t => c :: t)

/-- Strict UTF-8 decoding of a byte sequence back to code points, as
`str(decrypt, "utf-8")` in `Temescal.decrypt_packet`; `none` models a raised
`UnicodeDecodeError`. -/
def utf8Decode (l : List Nat) : Option (List Nat) := utf8DecodeAux l.length l

/-- Number of pad characters appended by `encrypt_packet`:
`padlen = 16 - (len(data) % 16)`. -/
def padlen (s : List Nat) : Nat := 16 - s.length % 16

/-- The padding loop of `encrypt_packet`:
`for _i in range(padlen): data = data + chr(padlen)`. -/
def padText (s : List Nat) : List Nat := s ++ List.replicate (padlen s) (padlen s)

/-- `Temescal.encrypt_packet`, with the AES-256-CBC encryption under the
fixed key/IV abstracted as `enc`.  The plaintext `data` (a Python `str`) is
padded, UTF-8 encoded and encrypted; the source then builds the prelude as
`bytearray([0x10, 0x00, 0x00, 0x00, length])`, which raises `ValueError`
whenever `length` is not in `range(0, 256)` — modelled by `none`. -/
def encrypt_packet (enc : List Nat → List Nat) (data : List Nat) : Option (List Nat) :=
  let encrypted := enc (utf8Encode (padText data))
  let length := encrypted.length
  if length < 256 then some ([0x10, 0x00, 0x00, 0x00, length] ++ encrypted) else none

/-- Python slice `l[:-k]` for a nonnegative `k`: for `k = 0` this is `l[:0]`
(the empty list), otherwise the first `len(l) - k` elements. -/
def pyTailSlice (l : List Nat) (k : Nat) : List Nat :=
  if k = 0 then [] else l.take (l.length - k)

/-- `Temescal.decrypt_packet`, with the AES-256-CBC decryption under the
fixed key/IV abstracted as `dec`.  The last decrypted byte is read
(`padding = decrypt[-1:]`; `ord` of an empty slice raises, modelled by
`none`), that many bytes are stripped (`decrypt[: -ord(padding)]`) and the
remainder is decoded as UTF-8 (`str(decrypt, "utf-8")`).  The source
performs no validation of the padding value. -/
def decrypt_packet (dec : List Nat → List Nat) (data : List Nat) : Option (List Nat) :=
  let decrypt := dec data
  match decrypt.getLast? with
  | none => none
  | some padding => utf8Decode (pyTailSlice decrypt padding)

/-- A scalar JSON value occurring in a command's data mapping. -/
inductive JVal where
  | jBool (b : Bool)
  | jInt (i : Int)
  | jStr (s : List Nat)
deriving DecidableEq, Repr

/-- A protocol command: `{"cmd": ..., "data": {...}?, "msg": ...}`
(`Command` in the spec's data model; built by the `Temescal` send helpers). -/
structure Command where
  cmd : List Nat
  data : Option (List (List Nat × JVal))
  msg : List Nat
deriving DecidableEq, Repr

/-- `encode`: `json.dumps` (the parameter `dumps`) followed by
`Temescal.encrypt_packet`, as in `Temescal.send_packet`. -/
def encode (enc : List Nat → List Nat) (dumps : Command → List Nat)
    (c : Command) : Option (List Nat) :=
  encrypt_packet enc (dumps c)

/-- `decode`: strip the 5-byte prelude, run `Temescal.decrypt_packet`, and
parse the plaintext as JSON (the parameter `loads`), as in
`Temescal.data_received` / `Temescal.handle_response`. -/
def decode (dec : List Nat → List Nat) (loads : List Nat → Option Command)
    (pkt : List Nat) : Option Command :=
  (decrypt_packet dec (pkt.drop 5)).bind loads

/-- Code points of a Lean string literal, for concrete Python `str` values. -/
def strCodes (s : String) : List Nat := s.data.map Char.toNat

/-! ### Codec lemmas -/

theorem utf8EncodeChar_ascii {b : Nat} (h : b < 128) : utf8EncodeChar b = [b] := by
  simp [utf8EncodeChar, h]

theorem utf8Encode_ascii : ∀ (l : List Nat), (∀ b ∈ l, b < 128) → utf8Encode l = l
  | [], _ => rfl
  | b :: rest, h => by
    have hb : b < 128 := h b (List.mem_cons_self b rest)
    have hr := utf8Encode_ascii rest (fun x hx => h x (List.mem_cons_of_mem b hx))
    simp only [utf8Encode, List.map_cons, List.flatten_cons] at hr ⊢
    rw [utf8EncodeChar_ascii hb, hr]
    rfl

theorem utf8DecodeOne_length {b : Nat} {rest : List Nat} {c : Nat} {r : List Nat}
    (h : utf8DecodeOne b rest = some (c, r)) : r.length ≤ rest.length := by
  rcases rest with _ | ⟨b1, _ | ⟨b2, _ | ⟨b3, r'⟩⟩⟩ <;>
    simp only [utf8DecodeOne] at h <;> split_ifs at h <;> simp_all <;> omega

theorem utf8DecodeOne_ascii {b : Nat} (rest : List Nat) (hb : b < 128) :
    utf8DecodeOne b rest = some (b, rest) := by
  simp [utf8DecodeOne, hb]

theorem utf8DecodeAux_ascii : ∀ (l : List Nat) (fuel : Nat), l.length ≤ fuel →
    (∀ b ∈ l, b < 128) → utf8DecodeAux fuel l = some l
  | [], fuel, _, _ => by cases fuel <;> rfl
  | _ :: _, 0, hf, _ => by simp at hf
  | b :: rest, fuel + 1, hf, h => by
    have hb : b < 128 := h b (List.mem_cons_self b rest)
    have hfr : rest.length ≤ fuel := by simp at hf; omega
    have hr := utf8DecodeAux_ascii rest fuel hfr
      (fun x hx => h x (List.mem_cons_of_mem b hx))
    show (match utf8DecodeOne b rest with
          | none => none
          | some (c, r) => (utf8DecodeAux fuel r).map (fun t => c :: t)) = some (b :: rest)
    rw [utf8DecodeOne_ascii rest hb]
    show (utf8DecodeAux fuel rest).map (fun t => b :: t) = some (b :: rest)
    rw [hr]
    rfl

theorem utf8Decode_ascii (l : List Nat) (h : ∀ b ∈ l, b < 128) :
    utf8Decode l = some l :=
  utf8DecodeAux_ascii l l.length le_rfl h

theorem padlen_pos (s : List Nat) : 0 < padlen s :=
  Nat.sub_pos_of_lt (Nat.mod_lt _ (by norm_num))

theorem padlen_le (s : List Nat) : padlen s ≤ 16 := Nat.sub_le _ _

theorem padText_ascii (s : List Nat) (h : ∀ b ∈ s, b < 128) :
    ∀ b ∈ padText s, b < 128 := by
  intro b hb
  rcases List.mem_append.mp hb with hs | hp
  · exact h b hs
  · have := List.eq_of_mem_replicate hp
    subst this
    exact lt_of_le_of_lt (padlen_le s) (by norm_num)

theorem padText_getLast? (s : List Nat) : (padText s).getLast? = some (padlen s) := by
  obtain ⟨k, hk⟩ : ∃ k, padlen s = k + 1 :=
    ⟨padlen s - 1, (Nat.succ_pred_eq_of_pos (padlen_pos s)).symm⟩
  rw [padText, hk, List.replicate_succ', ← List.append_assoc, List.getLast?_concat]

theorem padText_strip (s : List Nat) :
    pyTailSlice (padText s) (padlen s) = s := by
  rw [pyTailSlice, if_neg (Nat.pos_iff_ne_zero.mp (padlen_pos s))]
  have hlen : (padText s).length = s.length + padlen s := by
    simp [padText]
  rw [hlen, Nat.add_sub_cancel, padText]
  exact List.take_left s _

/-! ## Claims C1–C3 (codec) -/

/-- C1: for every valid command (message-type tag plus optional data mapping
whose JSON serialization is representable, i.e. `encode` succeeds),
`decode (encode command)` — decrypting the ciphertext after the 5-byte
prelude produced by `encrypt_packet`, stripping the padding and parsing the
plaintext as JSON — recovers the original command, hence its message-type
tag and data mapping, exactly.  The AES-CBC cipher (`enc`/`dec`) and the
JSON library (`dumps`/`loads`) enter through their contracts: decryption
inverts encryption, parsing inverts serialization at this command, and
`json.dumps` output is ASCII (its default `ensure_ascii=True` escapes all
non-ASCII characters). -/
theorem C1_encode_decode_round_trip
    (enc dec : List Nat → List Nat)
    (dumps : Command → List Nat) (loads : List Nat → Option Command)
    (c : Command) (pkt : List Nat)
    (hcipher : ∀ l, dec (enc l) = l)
    (hjson : loads (dumps c) = some c)
    (hascii : ∀ b ∈ dumps c, b < 128)
    (henc : encode enc dumps c = some pkt) :
    decode dec loads pkt = some c := by
  have hpt : ∀ b ∈ padText (dumps c), b < 128 := padText_ascii _ hascii
  have hue : utf8Encode (padText (dumps c)) = padText (dumps c) := utf8Encode_ascii _ hpt
  simp only [encode, encrypt_packet] at henc
  split_ifs at henc with hlen
  · injection henc with henc'
    subst henc'
    simp only [decode, decrypt_packet]
    have hdrop :
        (([0x10, 0x00, 0x00, 0x00,
            (enc (utf8Encode (padText (dumps c)))).length] ++
          enc (utf8Encode (padText (dumps c)))).drop 5)
          = enc (utf8Encode (padText (dumps c))) := rfl
    rw [hdrop, hcipher, hue, padText_getLast?]
    show ((utf8Decode (pyTailSlice (padText (dumps c)) (padlen (dumps c)))).bind loads)
          = some c
    rw [padText_strip, utf8Decode_ascii _ hascii]
    exact hjson

/-- Concrete command instantiating the round-trip law. -/
def sampleCommand : Command :=
  { cmd := strCodes ("get"), data := none, msg := strCodes ("PLAY_INFO") }

/-- The `json.dumps` output for `sampleCommand`, as a concrete function. -/
def sampleDumps : Command → List Nat :=
  fun _ => strCodes ("\x7b\"cmd\": \"get\", \"msg\": \"PLAY_INFO\"\x7d")

/-- A concrete parser that is a left inverse of `sampleDumps` at
`sampleCommand`. -/
def sampleLoads : List Nat → Option Command := fun _ => some sampleCommand

theorem C1_witness :
    decode id sampleLoads ((encode id sampleDumps sampleCommand).getD [])
      = some sampleCommand :=
  C1_encode_decode_round_trip id id sampleDumps sampleLoads sampleCommand
    ((encode id sampleDumps sampleCommand).getD [])
    (fun _ => rfl) rfl (by decide) (by rfl)

/-- C2 counterexample: `decrypt_packet` performs no padding validation.  With
the cipher instantiated to the identity, a 16-byte buffer whose final
(decrypted) byte is 0 decodes successfully to the empty string (Python
`decrypt[:-0]` is `decrypt[:0]`), a buffer whose final byte is 65 (greater
than 16) also decodes to the empty string, and a 32-byte buffer whose final
byte is 20 silently strips 20 bytes and returns a 12-byte plaintext — in no
case is an error (`none`) produced, contradicting the claimed
`PaddingError`. -/
theorem C2_counterexample :
    decrypt_packet id (List.replicate 15 65 ++ [0]) = some [] ∧
    decrypt_packet id (List.replicate 16 65) = some [] ∧
    decrypt_packet id (List.replicate 31 65 ++ [20]) = some (List.replicate 12 65) := by
  refine ⟨rfl, rfl, rfl⟩

/-- C2 amended: for every buffer whose decrypted final byte is `n`,
`decrypt_packet` raises no padding error: it returns the UTF-8 decoding of
the decrypted buffer with its last `n` bytes stripped — the whole buffer
stripped when `n = 0` (slice `[:-0]` is `[:0]`), yielding the empty string;
the value `n` is never range-checked. -/
theorem C2_amended_no_padding_validation
    (dec : List Nat → List Nat) (data : List Nat) (n : Nat)
    (hlast : (dec data).getLast? = some n) :
    decrypt_packet dec data =
      if n = 0 then some []
      else utf8Decode ((dec data).take ((dec data).length - n)) := by
  simp only [decrypt_packet, hlast, pyTailSlice]
  split_ifs with h
  · subst h
    rfl
  · rfl

theorem C2_witness :
    decrypt_packet id (List.replicate 7 66 ++ [0]) =
      (if (0 : Nat) = 0 then some []
       else utf8Decode ((id (List.replicate 7 66 ++ [0])).take
              ((id (List.replicate 7 66 ++ [0])).length - 0))) :=
  C2_amended_no_padding_validation id (List.replicate 7 66 ++ [0]) 0 (by rfl)

/-- C3 (code bug): `encrypt_packet` builds its prelude as
`bytearray([0x10, 0x00, 0x00, 0x00, length])`, writing the ciphertext length
into a single byte; for any command whose padded serialization reaches 256
bytes the `bytearray` constructor raises `ValueError` and no packet is
produced, contradicting the claimed/intended 4-byte big-endian length field
(the receive path `data_received` does parse a genuine 4-byte big-endian
length with `struct.unpack(">I", ...)`).  Evaluation at a failing input: a
241-character serialized command (padded to 256 bytes) makes the encoder
fail. -/
theorem C3_encrypt_packet_length_overflow :
    encrypt_packet id (List.replicate 241 65) = none := by
  have hA : ∀ b ∈ List.replicate 241 65, b < 128 := by
    intro b hb
    rw [List.eq_of_mem_replicate hb]
    norm_num
  have hue := utf8Encode_ascii _ (padText_ascii _ hA)
  simp only [encrypt_packet, id_eq, hue]
  have hlen : (padText (List.replicate 241 65)).length = 256 := by
    simp [padText, padlen]
  rw [hlen]
  norm_num

/-! ## State model: `client.py`, class `LGDevice`

Python floats are modelled as `ℚ`, Python ints as `Int`.  Only the fields
touched by the modelled methods are carried. -/

/-- The `ucapi.media_player.States` values used by the driver. -/
inductive States where
  | unknown
  | off
  | on
  | playing
  | paused
deriving DecidableEq, Repr

/-- The mutable snapshot held by `LGDevice` (the `self._...` fields used by
the modelled methods, with the names of the source). -/
structure LGState where
  _power_state : Bool
  _volume : ℚ
  _volume_min : Int
  _volume_max : Int
  _volume_step : ℚ
  _mute : Bool
  _function : Int
  _functions : List Int
  _stream_type : Int
  _play_control : Int
  _night_mode : Bool
  _auto_volume_control : Bool
  _dynamic_range_reduction : Bool
  _neural_x : Bool
  _tv_remote : Bool
  _auto_display : Bool
deriving DecidableEq, Repr

/-- The field values set by `LGDevice.__init__`. -/
def initState (volume_step : ℚ) : LGState where
  _power_state := false
  _volume := 0
  _volume_min := 0
  _volume_max := 0
  _volume_step := volume_step
  _mute := false
  _function := -1
  _functions := []
  _stream_type := 0
  _play_control := 0
  _night_mode := false
  _auto_volume_control := false
  _dynamic_range_reduction := false
  _neural_x := false
  _tv_remote := false
  _auto_display := false

/-- `LGDevice.play_state`: `UNKNOWN` when `_stream_type == 0`, `PAUSED` when
`_play_control == 1`, else `PLAYING`. -/
def play_state (s : LGState) : States :=
  if s._stream_type = 0 then .unknown
  else if s._play_control = 1 then .paused
  else .playing

/-- `LGDevice.state`: `_state` is set to `OFF`/`ON` from `_power_state`, but
a known `play_state` is returned in preference to it. -/
def state (s : LGState) : States :=
  let st := if ¬ s._power_state then States.off else States.on
  if play_state s ≠ .unknown then play_state s else st

/-- `LGDevice.volume`: the normalized volume percentage. -/
def volume (s : LGState) : ℚ :=
  if s._volume_max - s._volume_min = 0 then 0
  else 100 * |(s._volume - (s._volume_min : ℚ)) / ((s._volume_max : ℚ) - (s._volume_min : ℚ))|

/-- `LGDevice.muted`. -/
def muted (s : LGState) : Bool := s._mute

/-- `LGDevice.check_source`: appends a not-yet-known source index to
`_functions`, returning whether the list changed. -/
def check_source (s : LGState) (source_id : Int) : LGState × Bool :=
  if source_id ∈ s._functions then (s, false)
  else ({ s with _functions := s._functions ++ [source_id] }, true)

/-- The fields of a `SPK_LIST_VIEW_INFO` payload read by
`LGDevice.handle_event`; `none` models a key absent from the data mapping. -/
structure SpkPayload where
  b_powerstatus : Option Bool := none
  i_vol : Option Int := none
  i_vol_min : Option Int := none
  i_vol_max : Option Int := none
  b_mute : Option Bool := none
  i_curr_func : Option Int := none
deriving Repr

/-- The new state and the changed-attribute flags (`update_data` keys)
collected for one `SPK_LIST_VIEW_INFO` response. -/
structure SpkUpdate where
  newState : LGState
  sourceListChanged : Bool
  stateChanged : Bool
  volumeChanged : Bool
  muteChanged : Bool
deriving Repr

/-- The `SPK_LIST_VIEW_INFO` branch of `LGDevice.handle_event`: snapshot the
derived attributes, merge the present fields (absent fields leave state
unchanged), then diff the derived attributes. -/
def handle_spk_list_view_info (s : LGState) (d : SpkPayload) : SpkUpdate :=
  let current_volume := volume s
  let current_mute := muted s
  let current_state := state s
  let s1 := match d.b_powerstatus with
    | some v => { s with _power_state := v }
    | none => s
  let s2 := match d.i_vol with
    | some v => { s1 with _volume := (v : ℚ) }
    | none => s1
  let s3 := match d.i_vol_min with
    | some v => { s2 with _volume_min := v }
    | none => s2
  let s4 := match d.i_vol_max with
    | some v => { s3 with _volume_max := v }
    | none => s3
  let s5 := match d.b_mute with
    | some v => { s4 with _mute := v }
    | none => s4
  let p := match d.i_curr_func with
    | some v => check_source { s5 with _function := v } v
    | none => (s5, false)
  { newState := p.1
    sourceListChanged := p.2
    stateChanged := decide (current_state ≠ state p.1)
    volumeChanged := decide (current_volume ≠ volume p.1)
    muteChanged := decide (current_mute ≠ muted p.1) }

/-- Python `int()` truncation toward zero. -/
def pyInt (q : ℚ) : Int := if 0 ≤ q then ⌊q⌋ else ⌈q⌉

/-- Result of a facade volume command: the new device state, the integer
volume sent on the wire (`set_volume(int(volume))`), and the payload of the
emitted `Events.UPDATE` event (`none` would mean no event). -/
structure VolumeCmdResult where
  newState : LGState
  sentVolume : Int
  emitted : Option ℚ
deriving Repr

/-- `LGDevice.volume_up`: add one volume step (scaled to the device range),
clamp to `_volume_max`, send `set_volume(int(volume))`, store the new value
and emit an `Events.UPDATE` with the normalized volume — the emission is
unconditional in the source. -/
def volume_up (s : LGState) : VolumeCmdResult :=
  let v := s._volume + s._volume_step * ((s._volume_max : ℚ) - (s._volume_min : ℚ)) / 100
  let v2 := min v (s._volume_max : ℚ)
  let s2 := { s with _volume := v2 }
  { newState := s2, sentVolume := pyInt v2, emitted := some (volume s2) }

/-! ## Facade dispatch: `LGDevice.toggle` and `LGDevice.send_command` -/

/-- The device-library call a facade command dispatches to (the `Temescal`
method invoked by the matching branch). -/
inductive Effect where
  | power (value : Bool)
  | setNightMode (value : Bool)
  | setAvc (value : Bool)
  | setDrc (value : Bool)
  | setNeuralx (value : Bool)
  | setTvRemote (value : Bool)
  | setAutoDisplay (value : Bool)
  | sourceNext
  | volUp
  | volDown
  | muteToggle
deriving DecidableEq, Repr

/-- The command identifiers handled by `LGDevice.send_command` (the string
constants `MODE_*`, `INPUT_NEXT` and the `ucapi` `Commands` members). -/
inductive MpCommand where
  | modeNight
  | modeAutoVolumeControl
  | modeDynamicRangeCompression
  | modeNeuralx
  | modeTvRemote
  | modeAutoDisplay
  | inputNext
  | cmdOn
  | cmdOff
  | cmdToggle
  | cmdVolumeUp
  | cmdVolumeDown
  | cmdMute
deriving DecidableEq, Repr

/-- `LGDevice.toggle`: `power(True)` when the derived state is `OFF`, else
`power(False)`. -/
def toggle (s : LGState) : Effect :=
  if state s = .off then .power true else .power false

/-- `LGDevice.send_command`: dispatch on the command identifier.  Note the
`Commands.TOGGLE` branch: `power(False)` when the derived state is `OFF`,
else `power(True)`. -/
def send_command (s : LGState) : MpCommand → Effect
  | .modeNight => .setNightMode (!s._night_mode)
  | .modeAutoVolumeControl => .setAvc (!s._auto_volume_control)
  | .modeDynamicRangeCompression => .setDrc (!s._dynamic_range_reduction)
  | .modeNeuralx => .setNeuralx (!s._neural_x)
  | .modeTvRemote => .setTvRemote (!s._tv_remote)
  | .modeAutoDisplay => .setAutoDisplay (!s._auto_display)
  | .inputNext => .sourceNext
  | .cmdOn => .power true
  | .cmdOff => .power false
  | .cmdToggle => if state s = .off then .power false else .power true
  | .cmdVolumeUp => .volUp
  | .cmdVolumeDown => .volDown
  | .cmdMute => .muteToggle

/-! ## Poll passes: `LGDevice.update` and `LGDevice.connect` -/

/-- The per-subsystem read requests issued over the transport
(`Temescal.get_eq` … `Temescal.get_product_info`). -/
inductive Request where
  | getEq
  | getInfo
  | getFunc
  | getSettings
  | getPlay
  | getProductInfo
deriving DecidableEq, Repr, Fintype

/-- `LGDevice.update(full)`: skipped entirely when the update lock is held;
otherwise requests equalizer, info, function, settings and play state, and
the product info only when `full` is true. -/
def update_requests (locked full : Bool) : List Request :=
  if locked then []
  else [.getEq, .getInfo, .getFunc, .getSettings, .getPlay] ++
    (if full then [.getProductInfo] else [])

/-- The first poll pass triggered by `LGDevice.connect`, which calls
`self.update()` with the default `full=False` (lock not held). -/
def connect_first_pass : List Request := update_requests false false

/-- The pass triggered by each cycle of `_background_update_task`, which
calls `self.update()` with the default `full=False`. -/
def poll_pass (locked : Bool) : List Request := update_requests locked false

/-! ## Poll loop: `LGDevice._background_update_task` -/

/-- `CONNECTION_RETRIES` in `client.py`. -/
def CONNECTION_RETRIES : Nat := 10

/-- Outcome of one iteration of the `while True` loop body, before the
10-second sleep: the new `_reconnect_retry` counter, whether the iteration
hit `break`, and whether it reached `await self.update()`. -/
structure CycleResult where
  retry : Nat
  breaks : Bool
  polls : Bool
deriving DecidableEq, Repr

/-- One iteration of `_background_update_task`'s loop body, observing the
current device snapshot `o` (the loop reads `self.state`). -/
def pollCycle (alwaysOn : Bool) (o : LGState) (retry : Nat) : CycleResult :=
  if alwaysOn then { retry := retry, breaks := false, polls := true }
  else if state o = .off then
    let r := retry + 1
    if r > CONNECTION_RETRIES then { retry := r, breaks := true, polls := false }
    else { retry := r, breaks := false, polls := true }
  else if retry > 0 then { retry := 0, breaks := false, polls := true }
  else { retry := retry, breaks := false, polls := true }

/-- Cumulative result of running the loop over a finite trace of observed
snapshots: how many iterations reached `await self.update()`, the final
counter, and whether the loop exited via `break`. -/
structure RunResult where
  pollCount : Nat
  finalRetry : Nat
  broke : Bool
deriving DecidableEq, Repr

/-- Run `_background_update_task`'s loop over a trace of observed snapshots,
stopping at `break` (later observations are then never looked at). -/
def runPoll (alwaysOn : Bool) : Nat → List LGState → RunResult
  | retry, [] => { pollCount := 0, finalRetry := retry, broke := false }
  | retry, o :: rest =>
    let c := pollCycle alwaysOn o retry
    if c.breaks then { pollCount := 0, finalRetry := c.retry, broke := true }
    else
      let r := runPoll alwaysOn c.retry rest
      { pollCount := (if c.polls then 1 else 0) + r.pollCount
        finalRetry := r.finalRetry
        broke := r.broke }

/-- `_background_update_task` entered from `start_polling`: the counter
starts at 0; after the loop exits, `self._device.disconnect()` is called
when `always_on` is not set (second component). -/
def backgroundUpdateTask (alwaysOn : Bool) (obs : List LGState) : RunResult × Bool :=
  let r := runPoll alwaysOn 0 obs
  (r, r.broke && !alwaysOn)

/-! ## Transport send and command wrapper: `Temescal.send_packet`,
`client.cmd_wrapper` -/

/-- What one call of `Temescal.send_packet` does.  With no active transport
it logs and returns before encoding anything.  Otherwise
`self.encrypt_packet(json.dumps(data))` runs *outside* the try block, so a
`ValueError` from the one-byte length prelude (ciphertext of 256 bytes or
more, see C3) propagates out of `send_packet` uncaught
(`raisedEncodeError`).  A failed `transport.write` is caught, one
reconnect-and-rewrite is attempted, and a second failure is swallowed
(`pass`), so the write path always returns normally. -/
inductive SendOutcome where
  | noConnection
  | raisedEncodeError
  | written
  | writtenAfterRetry
  | droppedAfterRetry
deriving DecidableEq, Repr

/-- `Temescal.send_packet`, over the AES encryption `enc`, the serialized
payload text `data` (the `json.dumps` output), the transport presence and
the success of the first and the retried `transport.write`. -/
def send_packet (enc : List Nat → List Nat) (data : List Nat)
    (hasTransport firstWriteOk retryWriteOk : Bool) : SendOutcome :=
  if !hasTransport then .noConnection
  else
    match encrypt_packet enc data with
    | none => .raisedEncodeError
    | some _ =>
      if firstWriteOk then .written
      else if retryWriteOk then .writtenAfterRetry
      else .droppedAfterRetry

/-- The exception classes relevant to `cmd_wrapper`'s handlers: aiohttp's
`ClientError` (the only class the first handler catches), the
`AttributeError` raised by reading undefined attributes, and any other
`Exception`. -/
inductive PyExc where
  | clientError
  | attributeError
  | otherExc
deriving DecidableEq, Repr

/-- How a call of a wrapped facade coroutine ends for its `ucapi` caller:
`StatusCodes.OK`, `StatusCodes.BAD_REQUEST`, Python's implicit `None`
return (the fall-through of the `except Exception` handler), or an
exception escaping the wrapper. -/
inductive CallResult where
  | okStatus
  | badRequest
  | pyNone
  | unhandled (e : PyExc)
deriving DecidableEq, Repr

/-- `client.cmd_wrapper` applied to an `LGDevice`; `first` is the outcome
of the first `await func` (`none` = returned normally).  On success the
wrapper starts polling and returns `StatusCodes.OK`.  A raised
`ClientError` enters the `except ClientError` clause, which logs (reading
only the existing `obj.state` and `obj.id`) and then evaluates
`obj.event_loop` — an attribute `LGDevice` never defines (only
`self._event_loop` exists) — so the clause itself raises `AttributeError`;
an exception raised inside an `except` clause is not caught by the sibling
`except Exception` handler of the same try statement, so it escapes the
wrapper, and the clause's subsequent reconnect/timeout/retry logic ending
in `return BAD_REQUEST` (which would next read the equally absent
`obj._connect_error`) is unreachable.  Any other `Exception` from the
coroutine is caught by the outer handler, which logs and falls through to
an implicit `None` return. -/
def cmd_wrapper (first : Option PyExc) : CallResult :=
  match first with
  | none => .okStatus
  | some .clientError => .unhandled .attributeError
  | some .attributeError => .pyNone
  | some .otherExc => .pyNone

/-- Code points of
`json.dumps({"cmd": "set", "data": {"b_powerkey": value}, "msg": "SPK_LIST_VIEW_INFO"})`,
the payload `Temescal.power` sends for `LGDevice.turn_on`/`turn_off`. -/
def powerPayloadText (value : Bool) : List Nat :=
  strCodes ("\x7b\"cmd\": \"set\", \"data\": \x7b\"b_powerkey\": ") ++
  (if value then strCodes ("true") else strCodes ("false")) ++
  strCodes ("\x7d, \"msg\": \"SPK_LIST_VIEW_INFO\"\x7d")

/-- For a length-preserving cipher the fixed power payload always encodes:
its padded plaintext stays far below the 256-byte prelude limit. -/
theorem powerPayload_encode_ok (enc : List Nat → List Nat)
    (hlen : ∀ l, (enc l).length = l.length) (value : Bool) :
    encrypt_packet enc (powerPayloadText value) ≠ none := by
  have hascii : ∀ b ∈ powerPayloadText value, b < 128 := by
    cases value <;> decide
  have hue := utf8Encode_ascii _ (padText_ascii _ hascii)
  simp only [encrypt_packet, hue, hlen]
  have hshort : (powerPayloadText value).length ≤ 239 := by
    cases value <;> decide
  have hlt : (padText (powerPayloadText value)).length < 256 := by
    simp only [padText, padlen, List.length_append, List.length_replicate]
    omega
  rw [if_pos hlt]
  simp

/-- The body of the wrapped `LGDevice.turn_on`/`turn_off`: it calls
`self._device.power(value)`, i.e. `send_packet` on the power payload.  The
only way the body can raise is the uncaught encode `ValueError` (an
`Exception` that is not a `ClientError`); every other `send_packet` branch
returns normally. -/
def turn_on_body (enc : List Nat → List Nat) (value : Bool)
    (hasTransport firstWriteOk retryWriteOk : Bool) :
    Option PyExc × SendOutcome :=
  let outcome := send_packet enc (powerPayloadText value)
    hasTransport firstWriteOk retryWriteOk
  ((if outcome = .raisedEncodeError then some .otherExc else none), outcome)

/-- `LGDevice.turn_on`/`turn_off` as seen by the `ucapi` caller:
`cmd_wrapper` applied to the body's outcome. -/
def turn_on_result (enc : List Nat → List Nat) (value : Bool)
    (hasTransport firstWriteOk retryWriteOk : Bool) : CallResult :=
  cmd_wrapper (turn_on_body enc value hasTransport firstWriteOk retryWriteOk).1

/-! ## Claims C5, C7, C8, C10 (state model and facade) -/

/-- A snapshot with an inverted volume range (`_volume_max < _volume_min`),
reachable since both bounds are merged independently from payloads. -/
def invertedRangeState : LGState :=
  { initState 1 with _volume := 1, _volume_min := 0, _volume_max := -1 }

/-- C5 counterexample: on a snapshot with `_volume_max < _volume_min` the
code computes `100 * |(raw - min) / (max - min)| = 100`, while the claimed
formula `100 * |raw - min| / (max - min)` is `-100`: the absolute value in
the source covers the whole quotient, the claimed one only the numerator. -/
theorem C5_counterexample :
    volume invertedRangeState = 100 ∧
    100 * |invertedRangeState._volume - (invertedRangeState._volume_min : ℚ)| /
        ((invertedRangeState._volume_max : ℚ) - (invertedRangeState._volume_min : ℚ))
      = -100 ∧
    (100 : ℚ) ≠ -100 := by
  refine ⟨?_, ?_, by norm_num⟩ <;>
    norm_num [volume, invertedRangeState, initState]

/-- C5 amended: the normalized volume equals
`100 * |raw - min| / (max - min)` whenever `min < max` (the claimed formula,
which matches the code's `100 * |(raw - min) / (max - min)|` only on
non-inverted ranges), and equals 0 when `max - min = 0`; applying a
`SPK_LIST_VIEW_INFO` payload with `i_vol=50, i_vol_min=0, i_vol_max=100`
yields normalized volume 50, and one with `i_vol_min == i_vol_max` yields
0. -/
theorem C5_normalized_volume (s : LGState) :
    (s._volume_min < s._volume_max →
      volume s = 100 * |s._volume - (s._volume_min : ℚ)| /
        ((s._volume_max : ℚ) - (s._volume_min : ℚ)))
  ∧ (s._volume_max - s._volume_min = 0 → volume s = 0)
  ∧ volume (handle_spk_list_view_info s
      { i_vol := some 50, i_vol_min := some 0, i_vol_max := some 100 }).newState = 50
  ∧ volume (handle_spk_list_view_info s
      { i_vol := some 7, i_vol_min := some 5, i_vol_max := some 5 }).newState = 0 := by
  refine ⟨?_, ?_, ?_, ?_⟩
  · intro hlt
    have hne : s._volume_max - s._volume_min ≠ 0 := by omega
    have hpos : (0 : ℚ) < (s._volume_max : ℚ) - (s._volume_min : ℚ) := by
      rw [sub_pos]
      exact_mod_cast hlt
    rw [volume, if_neg hne, abs_div, abs_of_pos hpos, mul_div_assoc]
  · intro h
    rw [volume, if_pos h]
  · cases hf : s._functions.contains s._function <;>
      simp [handle_spk_list_view_info, check_source, volume] <;>
      rw [abs_of_nonneg (by norm_num : (0:ℚ) ≤ 50 / 100)] <;> norm_num
  · cases hf : s._functions.contains s._function <;>
      simp [handle_spk_list_view_info, check_source, volume]

/-- A snapshot with a regular volume range, instantiating the amended C5. -/
def regularRangeState : LGState := { initState 1 with _volume_max := 100 }

theorem C5_witness :
    (regularRangeState._volume_min < regularRangeState._volume_max) ∧
    volume regularRangeState
      = 100 * |regularRangeState._volume - (regularRangeState._volume_min : ℚ)| /
        ((regularRangeState._volume_max : ℚ) - (regularRangeState._volume_min : ℚ)) :=
  ⟨by norm_num [regularRangeState, initState],
   (C5_normalized_volume regularRangeState).1 (by norm_num [regularRangeState, initState])⟩

/-- A snapshot already at the maximum raw volume. -/
def atMaxVolumeState : LGState :=
  { initState 1 with
    _power_state := true
    _volume := 100
    _volume_min := 0
    _volume_max := 100 }

/-- C7 counterexample: `volume_up` at `i_vol_max` leaves the stored volume
unchanged, yet the source emits the `Events.UPDATE` event unconditionally —
an event fires although the value did not change, contradicting the claim
that no event is emitted when the clamped value equals the previous one. -/
theorem C7_counterexample :
    (volume_up atMaxVolumeState).newState._volume = atMaxVolumeState._volume ∧
    (volume_up atMaxVolumeState).emitted = some 100 := by
  constructor <;>
    norm_num [volume_up, atMaxVolumeState, initState, volume, abs_of_nonneg]

/-- C7 amended: when the raw volume is at `i_vol_max` (with a nonnegative
volume step and a non-inverted range) `volume_up` leaves the stored volume
unchanged (clamped by `min(volume, self._volume_max)`), but the
`Events.UPDATE` change event is emitted on every invocation, irrespective
of whether the value changed. -/
theorem C7_volume_up_clamps_but_always_emits (s : LGState)
    (hmax : s._volume = (s._volume_max : ℚ))
    (hstep : 0 ≤ s._volume_step)
    (hrange : s._volume_min ≤ s._volume_max) :
    (volume_up s).newState._volume = s._volume ∧
    (volume_up s).emitted ≠ none := by
  constructor
  · have hnn : (0 : ℚ) ≤ s._volume_step * ((s._volume_max : ℚ) - (s._volume_min : ℚ)) / 100 := by
      apply div_nonneg _ (by norm_num)
      apply mul_nonneg hstep
      rw [sub_nonneg]
      exact_mod_cast hrange
    simp only [volume_up, hmax]
    exact min_eq_right (by linarith)
  · simp [volume_up]

theorem C7_witness :
    ((volume_up atMaxVolumeState).newState._volume = atMaxVolumeState._volume ∧
      (volume_up atMaxVolumeState).emitted ≠ none) :=
  C7_volume_up_clamps_but_always_emits atMaxVolumeState
    (by norm_num [atMaxVolumeState, initState])
    (by norm_num [atMaxVolumeState, initState])
    (by norm_num [atMaxVolumeState, initState])

/-- A snapshot whose power flag is false while a playback stream is known —
reachable because `b_powerstatus` and `i_stream_type` are merged
independently from `SPK_LIST_VIEW_INFO` and `PLAY_INFO` payloads. -/
def powerOffPlayingState : LGState :=
  { initState 1 with _power_state := false, _stream_type := 1, _play_control := 0 }

/-- C8 counterexample: with the power field false but a known playback
status, the derived state is `PLAYING`, not `OFF`: the source returns
`play_state` before consulting the power-derived `_state`, so playback
overrides even a power-off status. -/
theorem C8_counterexample :
    state powerOffPlayingState = .playing ∧ States.playing ≠ .off := by
  exact ⟨rfl, by decide⟩

/-- C8 amended: the derived state is always one of off/on/playing/paused;
a known playback status overrides the power status (whether on or off):
when `play_state` is known the state equals it, and only when playback is
unknown does power decide between `ON` and `OFF`. -/
theorem C8_state_derivation (s : LGState) :
    (play_state s = .unknown → state s = (if s._power_state then States.on else .off))
  ∧ (play_state s ≠ .unknown → state s = play_state s)
  ∧ (state s = .off ∨ state s = .on ∨ state s = .playing ∨ state s = .paused) := by
  refine ⟨?_, ?_, ?_⟩ <;>
    simp only [state, play_state] <;> split_ifs <;> simp_all

theorem C8_witness :
    (play_state (initState 1) = .unknown ∧
      state (initState 1) = (if (initState 1)._power_state then States.on else .off)) :=
  ⟨rfl, (C8_state_derivation (initState 1)).1 rfl⟩

/-- C10: the generic `send_command` handles `Commands.TOGGLE` with the
inverse polarity of the dedicated `toggle()`: `send_command` sends
`power(False)` when the derived state is `OFF` and `power(True)` otherwise,
while `toggle()` sends `power(True)` when `OFF` and `power(False)`
otherwise — whatever power value one of them sends, the other sends its
negation. -/
theorem C10_send_command_toggle_inverted (s : LGState) (v : Bool) :
    send_command s .cmdToggle
        = (if state s = .off then Effect.power false else .power true)
  ∧ toggle s = (if state s = .off then Effect.power true else .power false)
  ∧ (send_command s .cmdToggle = .power v ↔ toggle s = .power !v) := by
  refine ⟨rfl, rfl, ?_⟩
  by_cases h : state s = .off <;> cases v <;> simp [send_command, toggle, h]

/-! ## Claim C9 (poll passes) -/

/-- C9 counterexample: the first poll pass after `connect()` does not
request the product info: `connect` calls `self.update()` with the default
`full=False`, and nothing in the connect or polling path passes
`full=True`. -/
theorem C9_counterexample : Request.getProductInfo ∉ connect_first_pass := by
  decide

/-- C9 amended: every non-skipped pass requests exactly the equalizer,
info, function, settings and play subsystems, with the product info added
exactly when `update` is invoked with `full=True`; but neither the
`connect()` path nor the poll loop passes `full=True`, so the product info
is never requested on the first pass after a (re)connect. -/
theorem C9_update_pass_requests (full : Bool) :
    (∀ r : Request, r ∈ update_requests false full ↔
      (r = .getEq ∨ r = .getInfo ∨ r = .getFunc ∨ r = .getSettings ∨ r = .getPlay ∨
       (r = .getProductInfo ∧ full = true)))
  ∧ Request.getProductInfo ∉ connect_first_pass
  ∧ (∀ locked : Bool, Request.getProductInfo ∉ poll_pass locked) := by
  cases full <;> decide

/-! ## Claim C4 (poll loop give-up) -/

theorem pollCycle_off {o : LGState} (r : Nat) (ho : state o = .off) :
    pollCycle false o r =
      (if r + 1 > CONNECTION_RETRIES
       then { retry := r + 1, breaks := true, polls := false }
       else { retry := r + 1, breaks := false, polls := true }) := by
  simp [pollCycle, ho]

theorem pollCycle_on_resets {o : LGState} (r : Nat) (ho : state o ≠ .off) :
    (pollCycle false o r).retry = 0 := by
  simp only [pollCycle]
  split_ifs <;> simp_all

theorem runPoll_off_streak (suffix : List LGState) :
    ∀ (obs : List LGState) (r : Nat), obs ≠ [] →
      CONNECTION_RETRIES < r + obs.length →
      (∀ o ∈ obs, state o = .off) →
      runPoll false r (obs ++ suffix) = runPoll false r obs ∧
      (runPoll false r obs).broke = true
  | [], _, hne, _, _ => absurd rfl hne
  | o :: rest, r, _, hlen, hoff => by
    have ho : state o = .off := hoff o (List.mem_cons_self o rest)
    by_cases hbr : r + 1 > CONNECTION_RETRIES
    · constructor <;> simp [runPoll, pollCycle_off r ho, hbr]
    · have hrest : rest ≠ [] := by
        intro hr
        subst hr
        simp [CONNECTION_RETRIES] at hlen hbr
        omega
      have hlen2 : CONNECTION_RETRIES < (r + 1) + rest.length := by
        simp at hlen
        omega
      have ih := runPoll_off_streak suffix rest (r + 1) hrest hlen2
        (fun x hx => hoff x (List.mem_cons_of_mem o hx))
      constructor
      · simp only [List.cons_append, runPoll, pollCycle_off r ho, if_neg hbr,
          List.append_eq]
        rw [ih.1]
      · simp only [runPoll, pollCycle_off r ho, if_neg hbr]
        simpa using ih.2

theorem runPoll_off_pollCount :
    ∀ (obs : List LGState) (r : Nat), (∀ o ∈ obs, state o = .off) →
      (runPoll false r obs).pollCount + min r CONNECTION_RETRIES ≤ CONNECTION_RETRIES
  | [], r, _ => by
    simp [runPoll]
  | o :: rest, r, hoff => by
    have ho : state o = .off := hoff o (List.mem_cons_self o rest)
    by_cases hbr : r + 1 > CONNECTION_RETRIES
    · simp [runPoll, pollCycle_off r ho, hbr]
    · have ih := runPoll_off_pollCount rest (r + 1)
        (fun x hx => hoff x (List.mem_cons_of_mem o hx))
      simp only [runPoll, pollCycle_off r ho, if_neg hbr]
      simp only [CONNECTION_RETRIES] at ih hbr ⊢
      simp
      omega

/-- A snapshot with the power flag false while a playback stream is known:
the derived state is `PLAYING`, so the loop's `self.state == States.OFF`
test fails. -/
def offPowerStreamState : LGState :=
  { initState 1 with _power_state := false, _stream_type := 1 }

/-- C4 counterexample: 11 consecutive poll cycles all observing power-state
false do **not** terminate the loop when a playback stream type is also
known: the loop tests the derived state (`self.state == States.OFF`), which
is `PLAYING` in that case, so the counter never increments — all 11 cycles
still poll, the loop does not break and no disconnect happens. -/
theorem C4_counterexample :
    offPowerStreamState._power_state = false ∧
    (runPoll false 0 (List.replicate 11 offPowerStreamState)).broke = false ∧
    (runPoll false 0 (List.replicate 11 offPowerStreamState)).pollCount = 11 ∧
    (backgroundUpdateTask false (List.replicate 11 offPowerStreamState)).2 = false := by
  decide

/-- C4 amended: in every run of the poll loop in which 11 consecutive
cycles observe the derived state `OFF` (power false **and** no known
playback status) while always-on is disabled, the loop breaks, the
transport is disconnected, and no later observation is ever polled (the
run equals the run on the 11 observations alone, with at most 10 polls
issued); conversely any cycle observing a non-`OFF` derived state resets
the consecutive-failure counter to zero. -/
theorem C4_giving_up (obs11 suffix : List LGState)
    (hlen : obs11.length = 11)
    (hoff : ∀ o ∈ obs11, state o = .off) :
    runPoll false 0 (obs11 ++ suffix) = runPoll false 0 obs11
  ∧ (runPoll false 0 obs11).broke = true
  ∧ (backgroundUpdateTask false (obs11 ++ suffix)).2 = true
  ∧ (runPoll false 0 obs11).pollCount ≤ CONNECTION_RETRIES
  ∧ (∀ (o : LGState) (r : Nat), state o ≠ .off → (pollCycle false o r).retry = 0) := by
  have hne : obs11 ≠ [] := by
    intro h
    subst h
    simp at hlen
  have hlt : CONNECTION_RETRIES < 0 + obs11.length := by
    rw [hlen]
    norm_num [CONNECTION_RETRIES]
  obtain ⟨heq, hbroke⟩ := runPoll_off_streak suffix obs11 0 hne hlt hoff
  refine ⟨heq, hbroke, ?_, ?_, fun o r ho => pollCycle_on_resets r ho⟩
  · simp [backgroundUpdateTask, heq, hbroke]
  · simpa using runPoll_off_pollCount obs11 0 hoff

theorem C4_witness :
    ((List.replicate 11 (initState 1)).length = 11 ∧
      (backgroundUpdateTask false
        (List.replicate 11 (initState 1) ++ [initState 1])).2 = true) :=
  ⟨by simp,
   (C4_giving_up (List.replicate 11 (initState 1)) [initState 1] (by simp)
     (fun o ho => by rw [List.eq_of_mem_replicate ho]; rfl)).2.2.1⟩

/-! ## Claim C6 (command facade error handling) -/

/-- C6 counterexample: a facade command invoked with no active connection
returns `StatusCodes.OK`, not a bad-request status: `send_packet` logs,
drops the packet and returns when no transport is present, so the wrapped
coroutine never raises and `cmd_wrapper` takes its success path — no
reconnect-and-retry happens at all. -/
theorem C6_counterexample :
    turn_on_result id true false true true = .okStatus ∧
    send_packet id (powerPayloadText true) false true true = .noConnection ∧
    CallResult.okStatus ≠ .badRequest := by
  decide

/-- C6 amended: a facade power command returns `OK` in every transport
situation — in particular while the device is unreachable, where the packet
is silently dropped — because `send_packet` returns normally on its
no-transport and write paths and the fixed power payload never trips the
encode error; `cmd_wrapper` never produces `BAD_REQUEST` for any coroutine
outcome: on success it returns `OK`, on a non-`ClientError` exception the
outer handler swallows it into a `None` return, and were the coroutine ever
to raise a `ClientError`, the handler itself would raise `AttributeError`
on the absent `obj.event_loop` and that exception would escape the wrapper
(an exception raised inside an `except` clause is not caught by its sibling
handler), so the claimed reconnect-retry-then-`BAD_REQUEST` path is dead
code and an exception *would* then cross the public boundary. -/
theorem C6_unreachable_returns_ok (enc : List Nat → List Nat) (value : Bool)
    (first : Option PyExc)
    (hlen : ∀ l, (enc l).length = l.length) :
    (∀ hasTransport firstWriteOk retryWriteOk : Bool,
      turn_on_result enc value hasTransport firstWriteOk retryWriteOk = .okStatus)
  ∧ cmd_wrapper first ∈ [CallResult.okStatus, .pyNone, .unhandled .attributeError]
  ∧ cmd_wrapper (some .clientError) = .unhandled .attributeError
  ∧ cmd_wrapper (some .otherExc) = .pyNone := by
  refine ⟨?_, ?_, rfl, rfl⟩
  · intro hasTransport firstWriteOk retryWriteOk
    cases hasTransport with
    | false => rfl
    | true =>
      obtain ⟨p, hp⟩ : ∃ p, encrypt_packet enc (powerPayloadText value) = some p :=
        Option.ne_none_iff_exists'.mp (powerPayload_encode_ok enc hlen value)
      simp only [turn_on_result, turn_on_body, send_packet, hp, Bool.not_true]
      cases firstWriteOk <;> cases retryWriteOk <;> rfl
  · rcases first with _ | e
    · decide
    · cases e <;> decide

theorem C6_witness :
    turn_on_result id false false true true = CallResult.okStatus :=
  (C6_unreachable_returns_ok id false none (fun _ => rfl)).1 false true true

end LGSoundbar
